import Mathlib

/-
Shallow embedding of the fs_notify native core
(src/native/fs_notify/src/lib.rs).

The Rust module exposes, through a foreign-call boundary, a watcher
registry keyed by a global `NEXT_WATCHER_ID : AtomicU64` counter and a
global `WATCHERS : Mutex<HashMap<u64, WatcherInfo>>` map.  We model the
two globals as an explicit `RegistryState` threaded through every
operation.  OS-dependent outcomes (whether a `watch` call on a path
succeeds, whether a backend constructor succeeds, what `Path::is_dir`
observes at drain time) are abstracted into an `Env` record of boolean
oracles; everything else is translated line for line from the source.
Machine integers: the id counter is a wrapping `u64`, modelled as a
`Nat` kept below `2 ^ 64` by taking `% 2 ^ 64` on every increment.
-/

set_option autoImplicit false

namespace FsNotify

/-- Atoms declared in the `atoms` module of lib.rs (the closed vocabulary
exchanged with the host runtime). -/
inductive Atom where
  | ok
  | error
  | created
  | modified
  | removed
  | renamed
  | meta
  | file
  | directory
  | unknown
  | recommended
  | poll
  | inotify
  | fsevent
  | kqueue
  | windows
  | null
  | invalid_backend
  | watcher_not_found
  deriving DecidableEq, Repr

/-- Compilation target platform: the source selects behaviour with
`cfg(target_os = ...)`; the three named platforms plus a catch-all. -/
inductive Platform where
  | linux
  | macos
  | windows
  | other
  deriving DecidableEq, Repr

/-- The rustler `Error` values used by lib.rs.  The source only ever
constructs `Error::BadArg` (every `map_err` and failure path uses it). -/
inductive Error where
  | badArg
  deriving DecidableEq, Repr

/-- The `BackendType` enum of lib.rs.  In Rust the platform-specific
variants are `cfg`-gated out of existence off their platform; here all
variants exist and `from_atom` enforces the platform gating. -/
inductive BackendType where
  | Recommended
  | Poll
  | INotify
  | FsEvent
  | Windows
  | Null
  deriving DecidableEq, Repr

/-- The subset of `notify::WatcherKind` used by lib.rs. -/
inductive WatcherKind where
  | Inotify
  | Fsevent
  | Kqueue
  | PollWatcher
  | ReadDirectoryChangesWatcher
  | NullWatcher
  deriving DecidableEq, Repr

/-- The top-level constructors of `notify::EventKind`.  The payloads
(`CreateKind`, `ModifyKind`, ...) are never inspected by lib.rs, so they
are dropped. -/
inductive EventKind where
  | Any
  | Access
  | Create
  | Modify
  | Remove
  | Other
  deriving DecidableEq, Repr

/-- `notify_debouncer_mini::DebouncedEventKind` (non-exhaustive in Rust;
its two variants). -/
inductive DebouncedEventKind where
  | Any
  | AnyContinuous
  deriving DecidableEq, Repr

instance exceptDecEq {ε α : Type} [DecidableEq ε] [DecidableEq α] :
    DecidableEq (Except ε α) := fun x y =>
  match x, y with
  | .ok a, .ok b =>
      if h : a = b then isTrue (by rw [h]) else isFalse (by simp [h])
  | .error a, .error b =>
      if h : a = b then isTrue (by rw [h]) else isFalse (by simp [h])
  | .ok _, .error _ => isFalse (by simp)
  | .error _, .ok _ => isFalse (by simp)

/-- A `notify::Event` as consumed by `get_events`: a kind and the list of
affected paths, in order. -/
structure Event where
  kind : EventKind
  paths : List String
  deriving DecidableEq, Repr

/-- A `notify_debouncer_mini::DebouncedEvent`: one path and a debounced
kind. -/
structure DebouncedEvent where
  path : String
  kind : DebouncedEventKind
  deriving DecidableEq, Repr

/-- The `WatcherType` enum of lib.rs.  The live watcher/debouncer handles
carry no observable data; the mpsc receiver is modelled as the FIFO list
of results currently buffered in the channel (head = oldest).  A `Result`
in the channel is `Except Unit` payload: the error payload is never
inspected by the source. -/
inductive WatcherType where
  | Regular (receiver : List (Except Unit Event))
  | Debounced (receiver : List (Except Unit (List DebouncedEvent)))
  deriving DecidableEq, Repr

/-- The `WatcherInfo` struct of lib.rs (one registry entry). -/
structure WatcherInfo where
  watcher_type : WatcherType
  backend_kind : WatcherKind
  path : String
  recursive : Bool
  debounce_ms : Option Nat
  deriving DecidableEq, Repr

/-- The two global statics of lib.rs: `NEXT_WATCHER_ID` (a wrapping u64
counter) and `WATCHERS` (the id -> WatcherInfo map, modelled as an
association list with unique keys). -/
structure RegistryState where
  next_watcher_id : Nat
  watchers : List (Nat × WatcherInfo)
  deriving DecidableEq, Repr

/-- Initial state of the two statics: `AtomicU64::new(1)` and
`HashMap::new()`. -/
def initState : RegistryState :=
  { next_watcher_id := 1, watchers := [] }

/-- Oracles for the OS-dependent calls made by lib.rs: the running
platform, whether `watcher.watch(path, mode)` succeeds for a path
(false models a non-existent/unreadable path), whether a backend
constructor succeeds, and whether `new_debouncer` succeeds. -/
structure Env where
  platform : Platform
  watchOk : String → Bool
  ctorOk : BackendType → Bool
  debouncerOk : Bool

/-- `HashMap::get` on the modelled map. -/
def lookupW (id : Nat) : List (Nat × WatcherInfo) → Option WatcherInfo
  | [] => none
  | (k, v) :: rest => if k = id then some v else lookupW id rest

/-- `HashMap::remove` on the modelled map. -/
def removeW (id : Nat) : List (Nat × WatcherInfo) → List (Nat × WatcherInfo)
  | [] => []
  | (k, v) :: rest => if k = id then removeW id rest else (k, v) :: removeW id rest

/-- `HashMap::insert` on the modelled map (replaces any entry with the
same key). -/
def insertW (id : Nat) (info : WatcherInfo) (m : List (Nat × WatcherInfo)) :
    List (Nat × WatcherInfo) :=
  (id, info) :: removeW id m

/-- The concrete `WatcherKind` the `Recommended` alias resolves to,
mirroring the `cfg(target_os = ...)` ladder in
`BackendType::create_watcher` and in the debounced branch of
`start_watcher_internal`. -/
def recommendedKind : Platform → WatcherKind
  | .linux => .Inotify
  | .macos => .Fsevent
  | .windows => .ReadDirectoryChangesWatcher
  | .other => .PollWatcher

/-- The `WatcherKind` returned by `BackendType::create_watcher` for each
backend variant. -/
def createWatcherKind (p : Platform) : BackendType → WatcherKind
  | .Recommended => recommendedKind p
  | .Poll => .PollWatcher
  | .INotify => .Inotify
  | .FsEvent => .Fsevent
  | .Windows => .ReadDirectoryChangesWatcher
  | .Null => .NullWatcher

/-- `BackendType::from_atom`, with the `cfg(target_os)` gating made
explicit as a `Platform` argument.  `kqueue` is rejected unconditionally
(the source comments that kqueue support needs a feature flag of the
notify crate). -/
def BackendType.from_atom (p : Platform) (a : Atom) : Except Error BackendType :=
  if a = Atom.recommended then Except.ok BackendType.Recommended
  else if a = Atom.poll then Except.ok BackendType.Poll
  else if a = Atom.inotify then
    (if p = Platform.linux then Except.ok BackendType.INotify
     else Except.error Error.badArg)
  else if a = Atom.fsevent then
    (if p = Platform.macos then Except.ok BackendType.FsEvent
     else Except.error Error.badArg)
  else if a = Atom.kqueue then Except.error Error.badArg
  else if a = Atom.windows then
    (if p = Platform.windows then Except.ok BackendType.Windows
     else Except.error Error.badArg)
  else if a = Atom.null then Except.ok BackendType.Null
  else Except.error Error.badArg

/-- `list_available_backends`: always recommended, poll and null, plus
the platform-gated pushes in source order. -/
def list_available_backends (p : Platform) : List Atom :=
  [Atom.recommended, Atom.poll, Atom.null] ++
    (match p with
     | .linux => [Atom.inotify]
     | .macos => [Atom.fsevent, Atom.kqueue]
     | .windows => [Atom.windows]
     | .other => [])

/-- `event_kind_to_atom`: Create/Modify/Remove/Other are recognized
(Other maps to the `meta` atom); everything else falls to the wildcard
arm and yields `unknown`. -/
def event_kind_to_atom : EventKind → Atom
  | .Create => Atom.created
  | .Modify => Atom.modified
  | .Remove => Atom.removed
  | .Other => Atom.meta
  | _ => Atom.unknown

/-- `debounced_event_kind_to_atom`: `Any` maps to `modified`; the
wildcard arm (covering `AnyContinuous` and any future variant) yields
`unknown`. -/
def debounced_event_kind_to_atom : DebouncedEventKind → Atom
  | .Any => Atom.modified
  | _ => Atom.unknown

/-- `std::path::Path::is_dir` given the metadata probe outcome at drain
time: `fs p = none` models a failed `metadata` call (path gone or
unreadable), which `is_dir` turns into `false`; `some b` models a
successful probe answering `b`. -/
def path_is_dir (fs : String → Option Bool) (p : String) : Bool :=
  (fs p).getD false

/-- The file-type classification of `get_events`:
`if path.is_dir() { directory } else { file }`. -/
def file_type_atom (fs : String → Option Bool) (p : String) : Atom :=
  if path_is_dir fs p then Atom.directory else Atom.file

/-- The regular-watcher drain loop of `get_events`: each `Ok` event
expands to one tuple per affected path in order; an `Err` result is
skipped (`continue`). -/
def normalize_regular (fs : String → Option Bool) :
    List (Except Unit Event) → List (Atom × String × Atom)
  | [] => []
  | Except.error _ :: rest => normalize_regular fs rest
  | Except.ok e :: rest =>
      e.paths.map (fun p => (event_kind_to_atom e.kind, p, file_type_atom fs p))
        ++ normalize_regular fs rest

/-- The debounced-watcher drain loop of `get_events`: each `Ok` batch
expands to one tuple per debounced event; an `Err` result is skipped. -/
def normalize_debounced (fs : String → Option Bool) :
    List (Except Unit (List DebouncedEvent)) → List (Atom × String × Atom)
  | [] => []
  | Except.error _ :: rest => normalize_debounced fs rest
  | Except.ok evs :: rest =>
      evs.map (fun e =>
          (debounced_event_kind_to_atom e.kind, e.path, file_type_atom fs e.path))
        ++ normalize_debounced fs rest

/-- `start_watcher_internal`.  Mirrors the source order exactly: the id
is taken from `NEXT_WATCHER_ID.fetch_add(1, SeqCst)` FIRST (so the
counter advances whether or not the rest succeeds), then the
debounced/regular watcher is constructed and `watch`ed (each failure
mapped to `Error::BadArg` and propagated by `?`), and only on success is
the entry inserted into `WATCHERS`.  The debounced branch ignores the
requested backend: `new_debouncer` always uses the recommended watcher
and the stored `backend_kind` is the platform-default kind. -/
def start_watcher_internal (env : Env) (st : RegistryState) (path : String)
    (recursive : Bool) (backend : BackendType) (debounce_ms : Option Nat) :
    Except Error (Atom × Nat) × RegistryState :=
  let id := st.next_watcher_id
  let st1 : RegistryState :=
    { st with next_watcher_id := (st.next_watcher_id + 1) % 2 ^ 64 }
  match debounce_ms with
  | some ms =>
    if env.debouncerOk then
      if env.watchOk path then
        let info : WatcherInfo :=
          { watcher_type := WatcherType.Debounced []
            backend_kind := recommendedKind env.platform
            path := path
            recursive := recursive
            debounce_ms := some ms }
        (Except.ok (Atom.ok, id), { st1 with watchers := insertW id info st1.watchers })
      else (Except.error Error.badArg, st1)
    else (Except.error Error.badArg, st1)
  | none =>
    if env.ctorOk backend then
      if env.watchOk path then
        let info : WatcherInfo :=
          { watcher_type := WatcherType.Regular []
            backend_kind := createWatcherKind env.platform backend
            path := path
            recursive := recursive
            debounce_ms := none }
        (Except.ok (Atom.ok, id), { st1 with watchers := insertW id info st1.watchers })
      else (Except.error Error.badArg, st1)
    else (Except.error Error.badArg, st1)

/-- The `start_watcher` nif. -/
def start_watcher (env : Env) (st : RegistryState) (path : String)
    (recursive : Bool) : Except Error (Atom × Nat) × RegistryState :=
  start_watcher_internal env st path recursive BackendType.Recommended none

/-- The `start_watcher_with_backend` nif: `from_atom` is applied first,
and its `?` failure returns before `start_watcher_internal` runs (so the
counter does not advance on an invalid backend atom). -/
def start_watcher_with_backend (env : Env) (st : RegistryState) (path : String)
    (recursive : Bool) (backend_atom : Atom) :
    Except Error (Atom × Nat) × RegistryState :=
  match BackendType.from_atom env.platform backend_atom with
  | Except.error e => (Except.error e, st)
  | Except.ok backend => start_watcher_internal env st path recursive backend none

/-- The `start_watcher_with_debounce` nif. -/
def start_watcher_with_debounce (env : Env) (st : RegistryState) (path : String)
    (recursive : Bool) (backend_atom : Atom) (debounce_ms : Nat) :
    Except Error (Atom × Nat) × RegistryState :=
  match BackendType.from_atom env.platform backend_atom with
  | Except.error e => (Except.error e, st)
  | Except.ok backend =>
      start_watcher_internal env st path recursive backend (some debounce_ms)

/-- The `stop_watcher` nif: `watchers.remove(&id)`; `ok` if an entry was
removed, `watcher_not_found` otherwise. -/
def stop_watcher (st : RegistryState) (id : Nat) : Atom × RegistryState :=
  match lookupW id st.watchers with
  | some _ => (Atom.ok, { st with watchers := removeW id st.watchers })
  | none => (Atom.watcher_not_found, st)

/-- The `get_events` nif: on a known id, drain the session's channel
(`try_recv` until empty, i.e. the whole buffered list), normalize, and
leave the channel empty; on an unknown id return `Err(Error::BadArg)`. -/
def get_events (fs : String → Option Bool) (st : RegistryState) (id : Nat) :
    Except Error (List (Atom × String × Atom)) × RegistryState :=
  match lookupW id st.watchers with
  | some info =>
    match info.watcher_type with
    | WatcherType.Regular receiver =>
        (Except.ok (normalize_regular fs receiver),
         { st with watchers :=
            insertW id { info with watcher_type := WatcherType.Regular [] } st.watchers })
    | WatcherType.Debounced receiver =>
        (Except.ok (normalize_debounced fs receiver),
         { st with watchers :=
            insertW id { info with watcher_type := WatcherType.Debounced [] } st.watchers })
  | none => (Except.error Error.badArg, st)

/-- The `backend_atom` match inside `get_watcher_info` (the source's
non-exhaustive `_ => unknown` arm is unreachable over the six kinds the
source can store). -/
def watcher_kind_atom : WatcherKind → Atom
  | .Inotify => Atom.inotify
  | .Fsevent => Atom.fsevent
  | .Kqueue => Atom.kqueue
  | .PollWatcher => Atom.poll
  | .ReadDirectoryChangesWatcher => Atom.windows
  | .NullWatcher => Atom.null

/-- The `get_watcher_info` nif: on a known id report path, recursion
flag and the stored (resolved) backend kind as an atom; on an unknown id
return `Err(Error::BadArg)`. -/
def get_watcher_info (st : RegistryState) (id : Nat) :
    Except Error (Atom × String × Bool × Atom) :=
  match lookupW id st.watchers with
  | some info =>
      Except.ok (Atom.ok, info.path, info.recursive, watcher_kind_atom info.backend_kind)
  | none => Except.error Error.badArg

/-- One send by a regular watcher's background producer into its mpsc
channel (the `tx` captured by `recommended_watcher`/`PollWatcher::new`):
appended at the back of the buffered list.  After `stop` the session is
gone and the send is dropped. -/
def deliver_regular (st : RegistryState) (id : Nat) (r : Except Unit Event) :
    RegistryState :=
  match lookupW id st.watchers with
  | some info =>
    match info.watcher_type with
    | WatcherType.Regular receiver =>
        { st with watchers :=
            (insertW id
              { info with watcher_type := WatcherType.Regular (receiver ++ [r]) }
              st.watchers) }
    | WatcherType.Debounced _ => st
  | none => st

/-- A sequence of background sends, oldest first. -/
def deliver_regular_batch (st : RegistryState) (id : Nat)
    (rs : List (Except Unit Event)) : RegistryState :=
  rs.foldl (fun acc r => deliver_regular acc id r) st

/-- One send by a debounced watcher's background flush into its mpsc
channel (the closure passed to `new_debouncer` does
`let _ = tx.send(result)` with a `DebounceEventResult`): appended at the
back of the buffered list.  After `stop` the session is gone and the
send is dropped. -/
def deliver_debounced (st : RegistryState) (id : Nat)
    (r : Except Unit (List DebouncedEvent)) : RegistryState :=
  match lookupW id st.watchers with
  | some info =>
    match info.watcher_type with
    | WatcherType.Debounced receiver =>
        { st with watchers :=
            (insertW id
              { info with watcher_type := WatcherType.Debounced (receiver ++ [r]) }
              st.watchers) }
    | WatcherType.Regular _ => st
  | none => st

/-- A sequence of debounced background sends, oldest first. -/
def deliver_debounced_batch (st : RegistryState) (id : Nat)
    (rs : List (Except Unit (List DebouncedEvent))) : RegistryState :=
  rs.foldl (fun acc r => deliver_debounced acc id r) st

/-- View: the normalized events currently buffered on a session's
channel — exactly what draining it through `get_events` returns,
whichever of the two `WatcherType` branches the session is in. -/
def sessionPending (fs : String → Option Bool) (info : WatcherInfo) :
    List (Atom × String × Atom) :=
  match info.watcher_type with
  | WatcherType.Regular receiver => normalize_regular fs receiver
  | WatcherType.Debounced receiver => normalize_debounced fs receiver

/-- View: the same session with its channel drained empty, as
`get_events` leaves it in the registry. -/
def sessionCleared (info : WatcherInfo) : WatcherInfo :=
  { info with watcher_type :=
      match info.watcher_type with
      | WatcherType.Regular _ => WatcherType.Regular []
      | WatcherType.Debounced _ => WatcherType.Debounced [] }

/-- Modelled from the spec: one step of the Debounce Aggregator's
Collecting state.  The aggregator itself lives in the external
`notify_debouncer_mini` crate, not in src/; the spec (section 4.4)
describes it as a per-path "last kind observed" map updated by every raw
event in the window, one surviving entry per path, last-write-wins, in
window-arrival order. -/
def updateLast (acc : List (String × EventKind)) (p : String) (k : EventKind) :
    List (String × EventKind) :=
  if acc.any (fun q => q.1 = p) then
    acc.map (fun q => if q.1 = p then (p, k) else q)
  else acc ++ [(p, k)]

/-- Modelled from the spec: the accumulated per-path map after a whole
window of raw `(path, kind)` events, in arrival order. -/
def collectWindow (raws : List (String × EventKind)) : List (String × EventKind) :=
  raws.foldl (fun acc r => updateLast acc r.1 r.2) []

/-- Flush of a debounce window: one `DebouncedEvent` per surviving path.
The per-path survival is modelled from the spec (section 4.4); the kind
each flushed event carries is the source-visible fact that the debounced
channel type is `DebounceEventResult` over `DebouncedEventKind`, whose
flush value is `DebouncedEventKind::Any` — the raw kind does not survive
into the channel that `get_events` drains. -/
def flushWindow (raws : List (String × EventKind)) : List DebouncedEvent :=
  (collectWindow raws).map (fun r => { path := r.1, kind := DebouncedEventKind.Any })

/-- One host-visible operation on the registry, for whole-run theorems:
a `create` (any of the three start nifs funnels into
`start_watcher_internal`) or a `stop`. -/
inductive Op where
  | create (path : String) (recursive : Bool) (backend : BackendType)
      (debounce_ms : Option Nat)
  | stop (id : Nat)

/-- Run one operation; a successful create yields `some id`. -/
def runOp (env : Env) (st : RegistryState) : Op → Option Nat × RegistryState
  | Op.create p r b d =>
    let q := start_watcher_internal env st p r b d
    match q.1 with
    | Except.ok x => (some x.2, q.2)
    | Except.error _ => (none, q.2)
  | Op.stop i => (none, (stop_watcher st i).2)

/-- Run a list of operations, collecting the ids returned by successful
creates, in order. -/
def runOps (env : Env) (st : RegistryState) : List Op → List Nat × RegistryState
  | [] => ([], st)
  | op :: rest =>
    let s1 := runOp env st op
    let s2 := runOps env s1.2 rest
    (s1.1.toList ++ s2.1, s2.2)

/-- A fully permissive environment on linux: every OS call succeeds. -/
def envAll : Env :=
  { platform := Platform.linux
    watchOk := fun _ => true
    ctorOk := fun _ => true
    debouncerOk := true }

/-- A linux environment in which the backend `watch` call fails on every
path (models watching non-existent paths). -/
def envNoPath : Env :=
  { platform := Platform.linux
    watchOk := fun _ => false
    ctorOk := fun _ => true
    debouncerOk := true }

/-- A linux environment in which only the path "ok" exists. -/
def envOkOnly : Env :=
  { platform := Platform.linux
    watchOk := fun p => p == "ok"
    ctorOk := fun _ => true
    debouncerOk := true }

/-- A metadata probe that fails on every path (every path is gone at
drain time). -/
def fsGone : String → Option Bool := fun _ => none

/-- The canonical six normalized kinds of the spec (section 3):
created, modified, removed, renamed, other, unknown.  The source's atom
for the spec's "other (metadata-only)" kind is `meta`
(`EventKind::Other => atoms::meta()`). -/
def canonicalKinds : List Atom :=
  [Atom.created, Atom.modified, Atom.removed, Atom.renamed, Atom.meta, Atom.unknown]

/-- A concrete registry entry used to instantiate drain theorems: a
regular watcher on "d" with one buffered Create event for path "x". -/
def infoW : WatcherInfo :=
  { watcher_type := WatcherType.Regular [Except.ok { kind := EventKind.Create, paths := ["x"] }]
    backend_kind := WatcherKind.Inotify
    path := "d"
    recursive := true
    debounce_ms := none }

/-- A concrete registry state holding `infoW` under id 1. -/
def stW : RegistryState :=
  { next_watcher_id := 2, watchers := [(1, infoW)] }

/-- A concrete debounced registry entry: a debounced watcher on "d" with
one buffered flush batch for path "x". -/
def infoD : WatcherInfo :=
  { watcher_type := WatcherType.Debounced
      [Except.ok [{ path := "x", kind := DebouncedEventKind.Any }]]
    backend_kind := WatcherKind.Inotify
    path := "d"
    recursive := true
    debounce_ms := some 200 }

/-- A concrete registry state holding `infoD` under id 1. -/
def stD : RegistryState :=
  { next_watcher_id := 2, watchers := [(1, infoD)] }

/- Helper lemmas shared by the claim theorems. -/

theorem lookup_insert_self (id : Nat) (info : WatcherInfo)
    (m : List (Nat × WatcherInfo)) : lookupW id (insertW id info m) = some info := by
  simp [insertW, lookupW]

theorem lookup_remove_self (id : Nat) :
    ∀ m : List (Nat × WatcherInfo), lookupW id (removeW id m) = none := by
  intro m
  induction m with
  | nil => simp [removeW, lookupW]
  | cons hd tl ih =>
    obtain ⟨k, v⟩ := hd
    by_cases hk : k = id
    · simp [removeW, hk, ih]
    · simp [removeW, lookupW, hk, ih]

theorem swi_next_watcher_id (env : Env) (st : RegistryState) (p : String)
    (r : Bool) (b : BackendType) (d : Option Nat) :
    (start_watcher_internal env st p r b d).2.next_watcher_id
      = (st.next_watcher_id + 1) % 2 ^ 64 := by
  cases d with
  | none =>
    by_cases hc : env.ctorOk b <;> by_cases hw : env.watchOk p <;>
      simp [start_watcher_internal, hc, hw]
  | some ms =>
    by_cases hd : env.debouncerOk <;> by_cases hw : env.watchOk p <;>
      simp [start_watcher_internal, hd, hw]

theorem swi_result_shape (env : Env) (st : RegistryState) (p : String)
    (r : Bool) (b : BackendType) (d : Option Nat) :
    (start_watcher_internal env st p r b d).1 = Except.ok (Atom.ok, st.next_watcher_id)
      ∨ (start_watcher_internal env st p r b d).1 = Except.error Error.badArg := by
  cases d with
  | none =>
    by_cases hc : env.ctorOk b <;> by_cases hw : env.watchOk p <;>
      simp [start_watcher_internal, hc, hw]
  | some ms =>
    by_cases hd : env.debouncerOk <;> by_cases hw : env.watchOk p <;>
      simp [start_watcher_internal, hd, hw]

theorem swi_error_watchers (env : Env) (st : RegistryState) (p : String)
    (r : Bool) (b : BackendType) (d : Option Nat) (e : Error)
    (h : (start_watcher_internal env st p r b d).1 = Except.error e) :
    (start_watcher_internal env st p r b d).2.watchers = st.watchers := by
  cases d with
  | none =>
    by_cases hc : env.ctorOk b <;> by_cases hw : env.watchOk p <;>
      simp_all [start_watcher_internal, hc, hw]
  | some ms =>
    by_cases hd : env.debouncerOk <;> by_cases hw : env.watchOk p <;>
      simp_all [start_watcher_internal, hd, hw]

theorem swi_watch_fails (env : Env) (st : RegistryState) (p : String)
    (r : Bool) (b : BackendType) (d : Option Nat)
    (h : env.watchOk p = false) :
    (start_watcher_internal env st p r b d).1 = Except.error Error.badArg ∧
      (start_watcher_internal env st p r b d).2.watchers = st.watchers := by
  cases d with
  | none =>
    by_cases hc : env.ctorOk b <;> simp [start_watcher_internal, hc, h]
  | some ms =>
    by_cases hd : env.debouncerOk <;> simp [start_watcher_internal, hd, h]

theorem stop_preserves_next (st : RegistryState) (i : Nat) :
    (stop_watcher st i).2.next_watcher_id = st.next_watcher_id := by
  unfold stop_watcher
  cases lookupW i st.watchers <;> simp

/-- C1, counterexample.  The claim says a create call that returns an
error consumes no id, so a subsequent successful create returns an id
one greater than the previous successful one.  On the code the counter
is advanced by `fetch_add` before the watcher is built: create("ok")
succeeds with id 1, create("missing") fails, and the next successful
create returns id 3, not 2. -/
theorem c1_counterexample :
    (start_watcher_internal envOkOnly initState "ok" false
        BackendType.Recommended none).1 = Except.ok (Atom.ok, 1) ∧
    (start_watcher_internal envOkOnly
        (start_watcher_internal envOkOnly initState "ok" false
          BackendType.Recommended none).2
        "missing" false BackendType.Recommended none).1
      = Except.error Error.badArg ∧
    (start_watcher_internal envOkOnly
        (start_watcher_internal envOkOnly
          (start_watcher_internal envOkOnly initState "ok" false
            BackendType.Recommended none).2
          "missing" false BackendType.Recommended none).2
        "ok" false BackendType.Recommended none).1 = Except.ok (Atom.ok, 3) ∧
    (3 : Nat) ≠ 1 + 1 := by
  refine ⟨rfl, rfl, rfl, by decide⟩

/-- C1, amended.  `start_watcher_internal` takes the id from
`NEXT_WATCHER_ID.fetch_add` before constructing the backend watcher, so
every create call — failed or not — advances the counter by one; on any
error no registry entry is stored (the insert only happens after the
watcher is built and subscribed), but the id is consumed. -/
theorem c1_id_allocated_first (env : Env) (st : RegistryState) (path : String)
    (r : Bool) (b : BackendType) (dms : Option Nat) :
    (start_watcher_internal env st path r b dms).2.next_watcher_id
        = (st.next_watcher_id + 1) % 2 ^ 64 ∧
    (∀ e : Error, (start_watcher_internal env st path r b dms).1 = Except.error e →
      (start_watcher_internal env st path r b dms).2.watchers = st.watchers) :=
  ⟨swi_next_watcher_id env st path r b dms,
   fun e he => swi_error_watchers env st path r b dms e he⟩

/-- C1, witness for the amended theorem: a failed create on a
non-existent path advances the counter but leaves the registry map
unchanged. -/
theorem c1_id_allocated_first_witness :
    (start_watcher_internal envNoPath initState "p" false
        BackendType.Null none).2.next_watcher_id
      = (initState.next_watcher_id + 1) % 2 ^ 64 ∧
    (start_watcher_internal envNoPath initState "p" false
        BackendType.Null none).2.watchers = initState.watchers :=
  ⟨(c1_id_allocated_first envNoPath initState "p" false BackendType.Null none).1,
   (c1_id_allocated_first envNoPath initState "p" false BackendType.Null none).2
     Error.badArg rfl⟩

/-- C2: on macOS the enumeration and `create` diverge — the atom
`kqueue` is returned by `list_available_backends`, yet
`BackendType::from_atom` rejects `kqueue` unconditionally with
`Error::BadArg` (the source comments that kqueue needs a notify feature
flag).  This theorem evaluates both sides at the failing input. -/
theorem c2_kqueue_divergence :
    Atom.kqueue ∈ list_available_backends Platform.macos ∧
    BackendType.from_atom Platform.macos Atom.kqueue = Except.error Error.badArg := by
  exact ⟨by decide, rfl⟩

/-- C3: both normalizers only ever emit atoms of the canonical six-kind
set (the source's atom for the spec's "other" kind is `meta`), and every
raw kind not explicitly recognized — `EventKind::Any`,
`EventKind::Access(_)` for the regular path, and everything except
`DebouncedEventKind::Any` for the debounced path — maps to `unknown`,
never to a more specific kind. -/
theorem c3_normalized_kind_canonical :
    (∀ k : EventKind, event_kind_to_atom k ∈ canonicalKinds) ∧
    (∀ dk : DebouncedEventKind, debounced_event_kind_to_atom dk ∈ canonicalKinds) ∧
    event_kind_to_atom EventKind.Any = Atom.unknown ∧
    event_kind_to_atom EventKind.Access = Atom.unknown ∧
    debounced_event_kind_to_atom DebouncedEventKind.AnyContinuous = Atom.unknown := by
  refine ⟨fun k => ?_, fun dk => ?_, rfl, rfl, rfl⟩
  · cases k <;> simp [event_kind_to_atom, canonicalKinds]
  · cases dk <;> simp [debounced_event_kind_to_atom, canonicalKinds]

/-- C6: when the backend `watch` call fails (non-existent path), create
returns the error (`Error::BadArg`, the code's encoding of the spec's
`InvalidPath`) and the registry map — hence its size — is unchanged: the
insert into `WATCHERS` only happens after a successful subscribe. -/
theorem c6_invalid_path_registry_unchanged (env : Env) (st : RegistryState)
    (path : String) (r : Bool) (b : BackendType) (dms : Option Nat)
    (h : env.watchOk path = false) :
    (start_watcher_internal env st path r b dms).1 = Except.error Error.badArg ∧
    (start_watcher_internal env st path r b dms).2.watchers = st.watchers ∧
    (start_watcher_internal env st path r b dms).2.watchers.length
      = st.watchers.length := by
  obtain ⟨h1, h2⟩ := swi_watch_fails env st path r b dms h
  exact ⟨h1, h2, by rw [h2]⟩

/-- C6, witness: creating a watcher on a missing path in the initial
state errors and leaves the (empty) registry exactly as it was. -/
theorem c6_invalid_path_registry_unchanged_witness :
    (start_watcher_internal envNoPath initState "missing" true
        BackendType.Recommended none).1 = Except.error Error.badArg ∧
    (start_watcher_internal envNoPath initState "missing" true
        BackendType.Recommended none).2.watchers = initState.watchers ∧
    (start_watcher_internal envNoPath initState "missing" true
        BackendType.Recommended none).2.watchers.length
      = initState.watchers.length :=
  c6_invalid_path_registry_unchanged envNoPath initState "missing" true
    BackendType.Recommended none rfl

/-- C9: when the metadata probe fails at normalization time (the path is
already gone), `Path::is_dir` answers false, so the file-type
classification is `file`, and normalization is a total function — the
event is still produced, with the defaulted classification. -/
theorem c9_failed_probe_defaults_to_file (fs : String → Option Bool)
    (k : EventKind) (p : String) (h : fs p = none) :
    normalize_regular fs [Except.ok { kind := k, paths := [p] }]
        = [(event_kind_to_atom k, p, Atom.file)] ∧
    file_type_atom fs p = Atom.file := by
  constructor
  · simp [normalize_regular, file_type_atom, path_is_dir, h]
  · simp [file_type_atom, path_is_dir, h]

/-- C9, witness: a Remove event for a path whose probe fails normalizes
to a `removed` event classified as `file`. -/
theorem c9_failed_probe_defaults_to_file_witness :
    normalize_regular fsGone [Except.ok { kind := EventKind.Remove, paths := ["gone"] }]
        = [(event_kind_to_atom EventKind.Remove, "gone", Atom.file)] ∧
    file_type_atom fsGone "gone" = Atom.file :=
  c9_failed_probe_defaults_to_file fsGone EventKind.Remove "gone" rfl

theorem updateLast_single (p : String) (k k' : EventKind) :
    updateLast [(p, k')] p k = [(p, k)] := by
  simp [updateLast]

theorem foldl_updateLast_const_path (p : String) :
    ∀ (ks : List EventKind) (k' : EventKind),
      List.foldl (fun acc r => updateLast acc r.1 r.2) [(p, k')]
          (ks.map (fun x => (p, x)))
        = [(p, ks.getLastD k')] := by
  intro ks
  induction ks with
  | nil => intro k'; simp
  | cons k ks ih =>
    intro k'
    simp only [List.map_cons, List.foldl_cons, List.getLastD_cons]
    rw [updateLast_single p k k']
    exact ih k

theorem collectWindow_const_path (p : String) (k : EventKind) (ks : List EventKind) :
    collectWindow ((k :: ks).map (fun x => (p, x))) = [(p, ks.getLastD k)] := by
  simp only [collectWindow, List.map_cons, List.foldl_cons]
  have h0 : updateLast [] p k = [(p, k)] := by simp [updateLast]
  rw [h0]
  exact foldl_updateLast_const_path p ks k

theorem stop_ok_inversion (st : RegistryState) (id : Nat) (st' : RegistryState)
    (h : stop_watcher st id = (Atom.ok, st')) :
    st' = { st with watchers := removeW id st.watchers } := by
  unfold stop_watcher at h
  cases hl : lookupW id st.watchers with
  | none => rw [hl] at h; simp at h
  | some info =>
    rw [hl] at h
    have := (Prod.mk.injEq _ _ _ _).mp h
    exact this.2.symm

/-- C4, counterexample.  The claim says the surviving debounced event's
kind is the most recently observed raw kind for the path in the window.
On the code the debounced channel carries only `DebouncedEventKind`
(Any/AnyContinuous): for a window holding one raw Create event for "a",
the drain emits kind `modified` (via `debounced_event_kind_to_atom`),
while the most recently observed raw kind normalizes to `created`. -/
theorem c4_counterexample :
    normalize_debounced fsGone [Except.ok (flushWindow [("a", EventKind.Create)])]
        = [(Atom.modified, "a", Atom.file)] ∧
    event_kind_to_atom EventKind.Create = Atom.created ∧
    Atom.modified ≠ Atom.created := by
  refine ⟨rfl, rfl, by decide⟩

/-- C4, amended.  N ≥ 1 raw events for the same path arriving within one
debounce window are flushed as exactly one debounced event for that
path, but its kind is always `DebouncedEventKind::Any`, which
`debounced_event_kind_to_atom` renders as `modified` regardless of which
raw kinds were observed: the raw kind does not survive into the
debounced channel (the window aggregation is modelled from the spec, the
kind erasure comes from the source's channel type and normalizer). -/
theorem c4_debounce_collapses_to_one_modified (p : String) (k : EventKind)
    (ks : List EventKind) :
    flushWindow ((k :: ks).map (fun x => (p, x)))
        = [{ path := p, kind := DebouncedEventKind.Any }] ∧
    debounced_event_kind_to_atom DebouncedEventKind.Any = Atom.modified := by
  constructor
  · unfold flushWindow
    rw [collectWindow_const_path p k ks]
    rfl
  · rfl

/-- C5, counterexample.  The claim says that after a successful stop,
`getEvents(id)` returns NotFound as a distinct non-error value, never an
exceptional error.  On the code the second `stop` does return the
`watcher_not_found` atom, but `get_events` on the stopped id returns
`Err(Error::BadArg)` — an exceptional error at the host boundary, not a
NotFound value. -/
theorem c5_counterexample :
    (stop_watcher
        (start_watcher_internal envAll initState "p" false BackendType.Null none).2
        1).1 = Atom.ok ∧
    (stop_watcher
        (stop_watcher
          (start_watcher_internal envAll initState "p" false BackendType.Null none).2
          1).2 1).1 = Atom.watcher_not_found ∧
    (get_events fsGone
        (stop_watcher
          (start_watcher_internal envAll initState "p" false BackendType.Null none).2
          1).2 1).1 = Except.error Error.badArg := by
  refine ⟨rfl, rfl, rfl⟩

/-- C5, amended.  After `stop(id)` has returned the `ok` atom, a second
`stop(id)` returns the `watcher_not_found` atom (a distinct non-error
value), but `get_events(id)` returns `Err(Error::BadArg)` — an
exceptional error — rather than a NotFound value or a stale/empty
success. -/
theorem c5_stopped_id_queries (fs : String → Option Bool) (st : RegistryState)
    (id : Nat) (st' : RegistryState) (h : stop_watcher st id = (Atom.ok, st')) :
    stop_watcher st' id = (Atom.watcher_not_found, st') ∧
    (get_events fs st' id).1 = Except.error Error.badArg := by
  have hst : st' = { st with watchers := removeW id st.watchers } :=
    stop_ok_inversion st id st' h
  have hnone : lookupW id st'.watchers = none := by
    rw [hst]
    exact lookup_remove_self id st.watchers
  constructor
  · unfold stop_watcher
    rw [hnone]
  · unfold get_events
    rw [hnone]

/-- C5, witness: stopping id 1 in a one-watcher registry succeeds, after
which a second stop reports `watcher_not_found` and `get_events` fails
with `BadArg`. -/
theorem c5_stopped_id_queries_witness :
    stop_watcher (stop_watcher stW 1).2 1
        = (Atom.watcher_not_found, (stop_watcher stW 1).2) ∧
    (get_events fsGone (stop_watcher stW 1).2 1).1 = Except.error Error.badArg :=
  c5_stopped_id_queries fsGone stW 1 (stop_watcher stW 1).2 rfl

theorem runOps_ids_bounded (env : Env) :
    ∀ (ops : List Op) (st : RegistryState),
      st.next_watcher_id + ops.length < 2 ^ 64 →
      (∀ i ∈ (runOps env st ops).1, st.next_watcher_id ≤ i) ∧
        (runOps env st ops).1.Pairwise (· < ·) := by
  intro ops
  induction ops with
  | nil =>
    intro st _
    constructor
    · intro i hi
      simp [runOps] at hi
    · simp [runOps]
  | cons op rest ih =>
    intro st h
    cases op with
    | stop j =>
      have hlen : (stop_watcher st j).2.next_watcher_id + rest.length < 2 ^ 64 := by
        rw [stop_preserves_next st j]
        simp only [List.length_cons] at h
        omega
      obtain ⟨hlb, hpw⟩ := ih (stop_watcher st j).2 hlen
      rw [stop_preserves_next st j] at hlb
      constructor
      · intro i hi
        simp only [runOps, runOp, Option.toList_none, List.nil_append] at hi
        exact hlb i hi
      · simp only [runOps, runOp, Option.toList_none, List.nil_append]
        exact hpw
    | create p r b d =>
      have hm : (st.next_watcher_id + 1) % 2 ^ 64 = st.next_watcher_id + 1 := by
        apply Nat.mod_eq_of_lt
        simp only [List.length_cons] at h
        omega
      have hnext : (start_watcher_internal env st p r b d).2.next_watcher_id
          = st.next_watcher_id + 1 := by
        rw [swi_next_watcher_id, hm]
      have hlen2 : (start_watcher_internal env st p r b d).2.next_watcher_id
          + rest.length < 2 ^ 64 := by
        rw [hnext]
        simp only [List.length_cons] at h
        omega
      obtain ⟨hlb, hpw⟩ := ih (start_watcher_internal env st p r b d).2 hlen2
      rw [hnext] at hlb
      rcases swi_result_shape env st p r b d with hok | herr
      · have hrun : (runOps env st (Op.create p r b d :: rest)).1
            = st.next_watcher_id
                :: (runOps env (start_watcher_internal env st p r b d).2 rest).1 := by
          simp only [runOps, runOp]
          rw [hok]
          simp
        rw [hrun]
        constructor
        · intro i hi
          rcases List.mem_cons.mp hi with hi0 | hi'
          · omega
          · have := hlb i hi'
            omega
        · refine List.pairwise_cons.mpr ⟨?_, hpw⟩
          intro j hj
          have := hlb j hj
          omega
      · have hrun : (runOps env st (Op.create p r b d :: rest)).1
            = (runOps env (start_watcher_internal env st p r b d).2 rest).1 := by
          simp only [runOps, runOp]
          rw [herr]
          simp
        rw [hrun]
        constructor
        · intro i hi
          have := hlb i hi
          omega
        · exact hpw

/-- C7: over any finite run of create/stop operations from the initial
state (short enough that the wrapping u64 counter cannot overflow — any
real process lifetime), the ids returned by the successful creates are
strictly increasing in call order, hence pairwise distinct and never
reused even after intervening stops. -/
theorem c7_ids_strictly_increasing (env : Env) (ops : List Op)
    (h : ops.length + 1 < 2 ^ 64) :
    (runOps env initState ops).1.Pairwise (· < ·) ∧
      (runOps env initState ops).1.Nodup := by
  have hinit : initState.next_watcher_id + ops.length < 2 ^ 64 := by
    simp only [initState]
    omega
  have key := runOps_ids_bounded env ops initState hinit
  exact ⟨key.2, key.2.imp (fun hlt => Nat.ne_of_lt hlt)⟩

/-- C7, witness: create, stop the result, create again — the two ids
returned are strictly increasing and distinct. -/
theorem c7_ids_strictly_increasing_witness :
    (runOps envAll initState
        [Op.create "a" false BackendType.Recommended none, Op.stop 1,
         Op.create "b" true BackendType.Null none]).1.Pairwise (· < ·) ∧
    (runOps envAll initState
        [Op.create "a" false BackendType.Recommended none, Op.stop 1,
         Op.create "b" true BackendType.Null none]).1.Nodup :=
  c7_ids_strictly_increasing envAll
    [Op.create "a" false BackendType.Recommended none, Op.stop 1,
     Op.create "b" true BackendType.Null none] (by decide)

theorem deliver_regular_lookup (st : RegistryState) (id : Nat)
    (r : Except Unit Event) (info : WatcherInfo)
    (recv : List (Except Unit Event))
    (h1 : lookupW id st.watchers = some info)
    (h2 : info.watcher_type = WatcherType.Regular recv) :
    lookupW id (deliver_regular st id r).watchers
      = some { info with watcher_type := WatcherType.Regular (recv ++ [r]) } := by
  unfold deliver_regular
  rw [h1]
  simp [h2, lookup_insert_self]

theorem deliver_batch_lookup (id : Nat) :
    ∀ (rs : List (Except Unit Event)) (st : RegistryState) (info : WatcherInfo)
      (recv : List (Except Unit Event)),
      lookupW id st.watchers = some info →
      info.watcher_type = WatcherType.Regular recv →
      lookupW id (deliver_regular_batch st id rs).watchers
        = some { info with watcher_type := WatcherType.Regular (recv ++ rs) } := by
  intro rs
  induction rs with
  | nil =>
    intro st info recv h1 h2
    simp only [deliver_regular_batch, List.foldl_nil]
    rw [h1]
    obtain ⟨wt, bk, pa, rc, dm⟩ := info
    simp only at h2
    subst h2
    simp
  | cons r rs ih =>
    intro st info recv h1 h2
    have hstep := deliver_regular_lookup st id r info recv h1 h2
    have hrec := ih (deliver_regular st id r)
      { info with watcher_type := WatcherType.Regular (recv ++ [r]) }
      (recv ++ [r]) hstep rfl
    simp only [deliver_regular_batch, List.foldl_cons]
    simp only [deliver_regular_batch] at hrec
    rw [hrec]
    simp

theorem deliver_debounced_lookup (st : RegistryState) (id : Nat)
    (r : Except Unit (List DebouncedEvent)) (info : WatcherInfo)
    (recv : List (Except Unit (List DebouncedEvent)))
    (h1 : lookupW id st.watchers = some info)
    (h2 : info.watcher_type = WatcherType.Debounced recv) :
    lookupW id (deliver_debounced st id r).watchers
      = some { info with watcher_type := WatcherType.Debounced (recv ++ [r]) } := by
  unfold deliver_debounced
  rw [h1]
  simp [h2, lookup_insert_self]

theorem deliver_debounced_batch_lookup (id : Nat) :
    ∀ (rs : List (Except Unit (List DebouncedEvent))) (st : RegistryState)
      (info : WatcherInfo) (recv : List (Except Unit (List DebouncedEvent))),
      lookupW id st.watchers = some info →
      info.watcher_type = WatcherType.Debounced recv →
      lookupW id (deliver_debounced_batch st id rs).watchers
        = some { info with watcher_type := WatcherType.Debounced (recv ++ rs) } := by
  intro rs
  induction rs with
  | nil =>
    intro st info recv h1 h2
    simp only [deliver_debounced_batch, List.foldl_nil]
    rw [h1]
    obtain ⟨wt, bk, pa, rc, dm⟩ := info
    simp only at h2
    subst h2
    simp
  | cons r rs ih =>
    intro st info recv h1 h2
    have hstep := deliver_debounced_lookup st id r info recv h1 h2
    have hrec := ih (deliver_debounced st id r)
      { info with watcher_type := WatcherType.Debounced (recv ++ [r]) }
      (recv ++ [r]) hstep rfl
    simp only [deliver_debounced_batch, List.foldl_cons]
    simp only [deliver_debounced_batch] at hrec
    rw [hrec]
    simp

theorem get_events_regular (fs : String → Option Bool) (st : RegistryState)
    (id : Nat) (info : WatcherInfo) (recv : List (Except Unit Event))
    (h1 : lookupW id st.watchers = some info)
    (h2 : info.watcher_type = WatcherType.Regular recv) :
    get_events fs st id
      = (Except.ok (normalize_regular fs recv),
         { st with watchers :=
            (insertW id { info with watcher_type := WatcherType.Regular [] }
              st.watchers) }) := by
  unfold get_events
  rw [h1]
  simp [h2]

theorem get_events_debounced (fs : String → Option Bool) (st : RegistryState)
    (id : Nat) (info : WatcherInfo)
    (recv : List (Except Unit (List DebouncedEvent)))
    (h1 : lookupW id st.watchers = some info)
    (h2 : info.watcher_type = WatcherType.Debounced recv) :
    get_events fs st id
      = (Except.ok (normalize_debounced fs recv),
         { st with watchers :=
            (insertW id { info with watcher_type := WatcherType.Debounced [] }
              st.watchers) }) := by
  unfold get_events
  rw [h1]
  simp [h2]

/-- C8: for every active watcher id — whichever of the two session
types it holds — draining returns exactly the normalization of the
events buffered on its channel since the previous drain and clears the
channel (an immediate second drain sees an empty buffer), and after
further deliveries a later drain returns exactly (and only) what was
delivered in between — no event is ever returned by two drain calls. -/
theorem c8_drain_exact (fs : String → Option Bool) (st : RegistryState)
    (id : Nat) (info : WatcherInfo)
    (h1 : lookupW id st.watchers = some info) :
    (get_events fs st id).1 = Except.ok (sessionPending fs info) ∧
    lookupW id (get_events fs st id).2.watchers = some (sessionCleared info) ∧
    sessionPending fs (sessionCleared info) = [] ∧
    (∀ recv rs, info.watcher_type = WatcherType.Regular recv →
      (get_events fs (deliver_regular_batch (get_events fs st id).2 id rs) id).1
        = Except.ok (normalize_regular fs rs)) ∧
    (∀ recv rs, info.watcher_type = WatcherType.Debounced recv →
      (get_events fs (deliver_debounced_batch (get_events fs st id).2 id rs) id).1
        = Except.ok (normalize_debounced fs rs)) := by
  cases hw : info.watcher_type with
  | Regular recv =>
    have hA := get_events_regular fs st id info recv h1 hw
    refine ⟨?_, ?_, ?_, ?_, ?_⟩
    · rw [hA]
      simp [sessionPending, hw]
    · rw [hA]
      simp only []
      rw [lookup_insert_self]
      simp [sessionCleared, hw]
    · simp [sessionPending, sessionCleared, hw, normalize_regular]
    · intro recv' rs h2'
      injection h2' with hr
      subst hr
      have hlook : lookupW id (get_events fs st id).2.watchers
          = some { info with watcher_type := WatcherType.Regular [] } := by
        rw [hA]
        exact lookup_insert_self id _ st.watchers
      have hb := deliver_batch_lookup id rs (get_events fs st id).2
        { info with watcher_type := WatcherType.Regular [] } [] hlook rfl
      have hres := get_events_regular fs
        (deliver_regular_batch (get_events fs st id).2 id rs) id _ ([] ++ rs) hb rfl
      rw [hres]
      simp
    · intro recv' rs h2'
      cases h2'
  | Debounced recv =>
    have hA := get_events_debounced fs st id info recv h1 hw
    refine ⟨?_, ?_, ?_, ?_, ?_⟩
    · rw [hA]
      simp [sessionPending, hw]
    · rw [hA]
      simp only []
      rw [lookup_insert_self]
      simp [sessionCleared, hw]
    · simp [sessionPending, sessionCleared, hw, normalize_debounced]
    · intro recv' rs h2'
      cases h2'
    · intro recv' rs h2'
      injection h2' with hr
      subst hr
      have hlook : lookupW id (get_events fs st id).2.watchers
          = some { info with watcher_type := WatcherType.Debounced [] } := by
        rw [hA]
        exact lookup_insert_self id _ st.watchers
      have hb := deliver_debounced_batch_lookup id rs (get_events fs st id).2
        { info with watcher_type := WatcherType.Debounced [] } [] hlook rfl
      have hres := get_events_debounced fs
        (deliver_debounced_batch (get_events fs st id).2 id rs) id _ ([] ++ rs) hb rfl
      rw [hres]
      simp

/-- C8, witness: on a regular watcher, draining returns the buffered
Create event and a drain after delivering one Modify event returns
exactly that event; on a debounced watcher, draining returns the
buffered flush batch and a drain after delivering a new flush batch
returns exactly that batch. -/
theorem c8_drain_exact_witness :
    ((get_events fsGone stW 1).1 = Except.ok (sessionPending fsGone infoW) ∧
     (get_events fsGone
        (deliver_regular_batch (get_events fsGone stW 1).2 1
          [Except.ok { kind := EventKind.Modify, paths := ["y"] }]) 1).1
       = Except.ok (normalize_regular fsGone
           [Except.ok { kind := EventKind.Modify, paths := ["y"] }])) ∧
    ((get_events fsGone stD 1).1 = Except.ok (sessionPending fsGone infoD) ∧
     (get_events fsGone
        (deliver_debounced_batch (get_events fsGone stD 1).2 1
          [Except.ok [{ path := "z", kind := DebouncedEventKind.Any }]]) 1).1
       = Except.ok (normalize_debounced fsGone
           [Except.ok [{ path := "z", kind := DebouncedEventKind.Any }]])) :=
  ⟨⟨(c8_drain_exact fsGone stW 1 infoW rfl).1,
    (c8_drain_exact fsGone stW 1 infoW rfl).2.2.2.1
      [Except.ok { kind := EventKind.Create, paths := ["x"] }]
      [Except.ok { kind := EventKind.Modify, paths := ["y"] }] rfl⟩,
   ⟨(c8_drain_exact fsGone stD 1 infoD rfl).1,
    (c8_drain_exact fsGone stD 1 infoD rfl).2.2.2.2
      [Except.ok [{ path := "x", kind := DebouncedEventKind.Any }]]
      [Except.ok [{ path := "z", kind := DebouncedEventKind.Any }]] rfl⟩⟩

/-- C10: `start_watcher_with_debounce` uses the requested backend only
for `from_atom` validation; once the atom resolves, the debounced
watcher is built on the platform's recommended mechanism regardless of
which backend was requested (the call is literally equal to the one with
`Recommended`), the create succeeds with the next id, and
`get_watcher_info` reports the platform-default backend kind. -/
theorem c10_debounce_backend_validation_only (env : Env) (st : RegistryState)
    (path : String) (r : Bool) (a : Atom) (ms : Nat) (b : BackendType)
    (hb : BackendType.from_atom env.platform a = Except.ok b)
    (hw : env.watchOk path = true) (hd : env.debouncerOk = true) :
    start_watcher_with_debounce env st path r a ms
        = start_watcher_internal env st path r BackendType.Recommended (some ms) ∧
    (start_watcher_with_debounce env st path r a ms).1
        = Except.ok (Atom.ok, st.next_watcher_id) ∧
    get_watcher_info (start_watcher_with_debounce env st path r a ms).2
        st.next_watcher_id
      = Except.ok (Atom.ok, path, r, watcher_kind_atom (recommendedKind env.platform)) := by
  have h1 : start_watcher_with_debounce env st path r a ms
      = start_watcher_internal env st path r b (some ms) := by
    unfold start_watcher_with_debounce
    rw [hb]
  have h2 : start_watcher_internal env st path r b (some ms)
      = start_watcher_internal env st path r BackendType.Recommended (some ms) := rfl
  have h3 : start_watcher_internal env st path r BackendType.Recommended (some ms)
      = (Except.ok (Atom.ok, st.next_watcher_id),
         { next_watcher_id := (st.next_watcher_id + 1) % 2 ^ 64
           watchers := insertW st.next_watcher_id
             { watcher_type := WatcherType.Debounced []
               backend_kind := recommendedKind env.platform
               path := path
               recursive := r
               debounce_ms := some ms }
             st.watchers }) := by
    unfold start_watcher_internal
    rw [hd, hw]
    simp
  refine ⟨h1.trans h2, ?_, ?_⟩
  · rw [h1, h2, h3]
  · rw [h1, h2, h3]
    unfold get_watcher_info
    rw [lookup_insert_self]

/-- C10, witness: explicitly requesting the `poll` backend with
debouncing on linux yields the same call as requesting `recommended`,
succeeds with id 1, and `get_watcher_info` reports `inotify` (the
platform default), not `poll`. -/
theorem c10_debounce_backend_validation_only_witness :
    start_watcher_with_debounce envAll initState "d" true Atom.poll 200
        = start_watcher_internal envAll initState "d" true
            BackendType.Recommended (some 200) ∧
    (start_watcher_with_debounce envAll initState "d" true Atom.poll 200).1
        = Except.ok (Atom.ok, 1) ∧
    get_watcher_info
        (start_watcher_with_debounce envAll initState "d" true Atom.poll 200).2 1
      = Except.ok (Atom.ok, "d", true, Atom.inotify) :=
  c10_debounce_backend_validation_only envAll initState "d" true Atom.poll 200
    BackendType.Poll rfl rfl rfl

end FsNotify
